import Mathlib

/-!
Shallow embedding of `src/App.tsx` (adyemsbillions/unimaidresourcesads):
a React Native shell that gates a WebView behind an interstitial-ad
cooldown, tracks connectivity, and intercepts the hardware back button.

The component's React `useState` hooks, the module-level `lastAdTime`
variable (App.tsx line 30) and the pending `setTimeout` timers of
`handleRefresh` are bundled into one `AppState` record.  Every event
handler in the source becomes a pure function on `AppState` that also
returns the list of observable external calls (`Action`s) it issues:
`interstitial.show()`, `interstitial.load()`, `webView.goBack()`,
`Alert.alert(Exit App ...)`, `BackHandler.exitApp()` and
`webView.reload()`.  `console.log` / `console.warn` calls are omitted as
unobservable.  Timestamps are JS `Date.now()` values, modelled as `Nat`
with the subtraction `now - lastAdTime` carried out in `Int`, matching
JS number arithmetic on the ranges involved.
-/

namespace UnimaidApp

/-- Cooldown between interstitial ads in milliseconds, `5 * 60 * 1000`
(App.tsx line 91). -/
def cooldownMs : Nat := 5 * 60 * 1000

/-- Delay after which `handleRefresh` resets the refreshing flag,
`setTimeout(() => setRefreshing(false), 1000)` (App.tsx line 153). -/
def refreshResetMs : Nat := 1000

/-- Observable external calls issued by the handlers of `App.tsx`. -/
inductive Action where
  /-- Call `interstitialRef.current.show()` (line 93). -/
  | showAd
  /-- Call `interstitialRef.current.load()` (lines 73, 109). -/
  | loadAd
  /-- Call `webViewRef.current.goBack()` (line 122). -/
  | goBack
  /-- Call `Alert.alert` with the Exit App confirmation (lines 125-133). -/
  | showExitPrompt
  /-- Call `BackHandler.exitApp()` (line 130). -/
  | exitApp
  /-- Call `webViewRef.current.reload()` (line 152). -/
  | reloadWebView
  deriving DecidableEq

/-- State of the component: the five `useState` hooks (App.tsx lines
33-37), the module-level `lastAdTime : number | null` (line 30), and the
expiry times of the pending `setTimeout(..., 1000)` timers scheduled by
`handleRefresh` (line 153), in scheduling order. -/
structure AppState where
  showWebView : Bool
  isLoading : Bool
  canGoBack : Bool
  refreshing : Bool
  isConnected : Bool
  lastAdTime : Option Nat
  pendingTimeouts : List Nat
  deriving DecidableEq

/-- Initial state: `useState(false)`, `useState(true)`, `useState(false)`,
`useState(false)`, `useState(true)` (App.tsx lines 33-37) and
`lastAdTime = null` (line 30); no timer pending. -/
def initialState : AppState :=
  { showWebView := false
    isLoading := true
    canGoBack := false
    refreshing := false
    isConnected := true
    lastAdTime := none
    pendingTimeouts := [] }

/-- Guard of the LOADED listener, `!lastAdTime || now - lastAdTime >= 5 * 60 * 1000`
(App.tsx line 91).  JS truthiness makes `!lastAdTime` true both when
`lastAdTime` is `null` and when it is the number `0`; otherwise the
numeric comparison is evaluated. -/
def loadedShowCond (lastAdTime : Option Nat) (now : Nat) : Bool :=
  match lastAdTime with
  | none => true
  | some t => t == 0 || decide ((now : Int) - (t : Int) ≥ (cooldownMs : Int))

/-- The `AdEventType.LOADED` listener (App.tsx lines 89-100): if the
guard passes, call `show()` and set `lastAdTime = now`; else reveal the
content (`setShowWebView(true)`, `setIsLoading(false)`) without showing. -/
def onLoaded (now : Nat) (s : AppState) : AppState × List Action :=
  if loadedShowCond s.lastAdTime now then
    ({ s with lastAdTime := some now }, [Action.showAd])
  else
    ({ s with showWebView := true, isLoading := false }, [])

/-- The `AdEventType.CLOSED` listener (App.tsx lines 105-110):
`setShowWebView(true)`, `setIsLoading(false)`, then
`interstitialRef.current.load()` to preload the next ad. -/
def onClosed (s : AppState) : AppState × List Action :=
  ({ s with showWebView := true, isLoading := false }, [Action.loadAd])

/-- Whether the `WebView` element is mounted.  The render function
(App.tsx lines 158-197) places the `WebView` in the tree exactly when
`showWebView` and `isConnected` both hold; React keeps `webViewRef.current`
non-null exactly while the element it is attached to is mounted, so this
predicate also models `webViewRef.current` being non-null in the guards
`showWebView && webViewRef.current && canGoBack` (line 121) and
`webViewRef.current?.reload()` (line 152). -/
def webViewMounted (s : AppState) : Bool :=
  s.showWebView && s.isConnected

/-- The hardware back-press handler `backAction` (App.tsx lines 120-136):
if `showWebView && webViewRef.current && canGoBack`, go back in the
WebView; otherwise show the exit confirmation prompt.  Both branches
return `true` (the event is consumed). -/
def backAction (s : AppState) : List Action × Bool :=
  if s.showWebView && webViewMounted s && s.canGoBack then
    ([Action.goBack], true)
  else
    ([Action.showExitPrompt], true)

/-- The NetInfo listener callback (App.tsx lines 48-50):
`setIsConnected(state.isConnected ?? true)` — a `null`/`undefined`
payload is coerced to `true`. -/
def onNetInfo (isConnectedRaw : Option Bool) (s : AppState) : AppState :=
  { s with isConnected := isConnectedRaw.getD true }

/-- `handleNavigationStateChange` (App.tsx lines 146-148):
`setCanGoBack(navState.canGoBack)`. -/
def handleNavigationStateChange (navCanGoBack : Bool) (s : AppState) : AppState :=
  { s with canGoBack := navCanGoBack }

/-- `handleRefresh` (App.tsx lines 150-154): `setRefreshing(true)`;
`webViewRef.current?.reload()` — a call that silently does nothing when
the ref is null, i.e. when the `WebView` is not mounted; then schedule
`setRefreshing(false)` to run `refreshResetMs` after `now`. -/
def handleRefresh (now : Nat) (s : AppState) : AppState × List Action :=
  ({ s with refreshing := true
            pendingTimeouts := s.pendingTimeouts ++ [now + refreshResetMs] },
   if webViewMounted s then [Action.reloadWebView] else [])

/-- Expiry of the earliest pending `handleRefresh` timer:
`setRefreshing(false)` (App.tsx line 153), unconditionally. -/
def onRefreshTimeout (s : AppState) : AppState :=
  { s with refreshing := false, pendingTimeouts := s.pendingTimeouts.tail }

/-- `onLoadStart` prop of the WebView (App.tsx line 170). -/
def onLoadStart (s : AppState) : AppState :=
  { s with isLoading := true }

/-- `onLoadEnd` prop of the WebView (App.tsx line 171). -/
def onLoadEnd (s : AppState) : AppState :=
  { s with isLoading := false }

/-- `onError` prop of the WebView (App.tsx lines 172-176): the error is
logged with `console.warn` and `setIsLoading(false)` is called; no other
state is touched. -/
def onError (s : AppState) : AppState :=
  { s with isLoading := false }

/-- The main area rendered by the component (App.tsx lines 158-197):
`null` while the gate is unresolved, the `WebView` (with an optional
loading overlay) when resolved and connected, and the offline
`ScrollView` with its retry button when resolved and disconnected.  The
banner ad below it (lines 200-208) is rendered unconditionally and is
not modelled. -/
inductive MainView where
  /-- The `null` branch: nothing rendered in the main area. -/
  | blank
  /-- The `WebView` branch; the flag records whether the
  `ActivityIndicator` loading overlay is shown above it (line 161). -/
  | webView (loadingOverlay : Bool)
  /-- The offline `ScrollView` with the No Internet Connection text and
  the Try Again retry button (lines 185-195). -/
  | offlineScreen
  deriving DecidableEq

/-- Render function: `showWebView ? (isConnected ? WebView... : offline...) : null`
(App.tsx lines 158-197). -/
def render (s : AppState) : MainView :=
  if s.showWebView then
    if s.isConnected then MainView.webView s.isLoading
    else MainView.offlineScreen
  else
    MainView.blank

/-- Events delivered to the component by its collaborators: the ad SDK,
the NetInfo monitor, the OS back button, the WebView, the refresh
control and the JS timer queue.  `adLoaded` and `refresh` carry the
`Date.now()` value at which the handler runs.  `exitConfirm` /
`exitCancel` are the user's choices in the exit dialog (App.tsx lines
129-130). -/
inductive Event where
  | adLoaded (now : Nat)
  | adClosed
  | netInfo (isConnectedRaw : Option Bool)
  | backPress
  | refresh (now : Nat)
  | refreshTimeout
  | loadStart
  | loadEnd
  | webError
  | navChange (canGoBack : Bool)
  | exitConfirm
  | exitCancel
  deriving DecidableEq

/-- One step of the event loop: dispatch an event to its handler,
returning the next state and the external calls issued.  Handlers run
serially on the UI thread, so a trace is just a list of events. -/
def step (s : AppState) (e : Event) : AppState × List Action :=
  match e with
  | Event.adLoaded now => onLoaded now s
  | Event.adClosed => onClosed s
  | Event.netInfo v => (onNetInfo v s, [])
  | Event.backPress => (s, (backAction s).1)
  | Event.refresh now => handleRefresh now s
  | Event.refreshTimeout => (onRefreshTimeout s, [])
  | Event.loadStart => (onLoadStart s, [])
  | Event.loadEnd => (onLoadEnd s, [])
  | Event.webError => (onError s, [])
  | Event.navChange b => (handleNavigationStateChange b s, [])
  | Event.exitConfirm => (s, [Action.exitApp])
  | Event.exitCancel => (s, [])

/-- Run a trace of events from a state. -/
def run (s : AppState) : List Event → AppState
  | [] => s
  | e :: es => run (step s e).1 es

/-- All external calls issued along a trace, in order. -/
def runActions (s : AppState) : List Event → List Action
  | [] => []
  | e :: es => (step s e).2 ++ runActions (step s e).1 es

/-- Number of `show()` calls in a list of issued actions. -/
def countShows (acts : List Action) : Nat :=
  acts.countP (fun a => decide (a = Action.showAd))

/-- Number of times the content-visibility flag flips from `false` to
`true` along a trace. -/
def flipsToVisible : AppState → List Event → Nat
  | _, [] => 0
  | s, e :: es =>
      (if s.showWebView = false ∧ (step s e).1.showWebView = true then 1 else 0) +
        flipsToVisible (step s e).1 es

/-- Stated from the spec claim C1 wording, for comparison with the code
guard `loadedShowCond`: an interstitial may be shown iff `lastAdTime` is
unset or `now - lastAdTime` is at least the cooldown. -/
def specShowCond (lastAdTime : Option Nat) (now : Nat) : Prop :=
  lastAdTime = none ∨
    ∃ t, lastAdTime = some t ∧ (now : Int) - (t : Int) ≥ (cooldownMs : Int)

/-- Number of times the refreshing flag flips from `false` to `true`
along a trace (one reload-indicator cycle start per flip). -/
def refreshingCycleStarts : AppState → List Event → Nat
  | _, [] => 0
  | s, e :: es =>
      (if s.refreshing = false ∧ (step s e).1.refreshing = true then 1 else 0) +
        refreshingCycleStarts (step s e).1 es

/-- Unfolding equation for the action component of the LOADED listener. -/
theorem onLoaded_actions (now : Nat) (s : AppState) :
    (onLoaded now s).2 =
      if loadedShowCond s.lastAdTime now then [Action.showAd] else [] := by
  unfold onLoaded
  split <;> rfl

/-- Unfolding equation for the back-press handler. -/
theorem backAction_eq (s : AppState) :
    backAction s =
      (if s.showWebView && webViewMounted s && s.canGoBack then [Action.goBack]
        else [Action.showExitPrompt], true) := by
  unfold backAction
  split <;> simp_all

/-- No event handler ever sets `showWebView` back to `false`. -/
theorem showWebView_step_mono (s : AppState) (e : Event) (h : s.showWebView = true) :
    (step s e).1.showWebView = true := by
  cases e <;>
      simp only [step, onLoaded, onClosed, onNetInfo, handleRefresh, onRefreshTimeout,
        onLoadStart, onLoadEnd, onError, handleNavigationStateChange] <;>
    (try split) <;> simp [h]

/-- Once `showWebView` is `true` it stays `true` along every trace. -/
theorem showWebView_run_mono (s : AppState) (es : List Event) (h : s.showWebView = true) :
    (run s es).showWebView = true := by
  induction es generalizing s with
  | nil => simpa [run] using h
  | cons e es ih =>
      simp only [run]
      exact ih _ (showWebView_step_mono s e h)

/-- A trace started with `showWebView = true` has no `false` to `true` flip. -/
theorem flipsToVisible_eq_zero (s : AppState) (es : List Event) (h : s.showWebView = true) :
    flipsToVisible s es = 0 := by
  induction es generalizing s with
  | nil => simp [flipsToVisible]
  | cons e es ih =>
      have h1 : (step s e).1.showWebView = true := showWebView_step_mono s e h
      simp [flipsToVisible, h, ih _ h1]

/-- Along any trace `showWebView` flips from `false` to `true` at most once. -/
theorem flipsToVisible_le_one (s : AppState) (es : List Event) :
    flipsToVisible s es ≤ 1 := by
  induction es generalizing s with
  | nil => simp [flipsToVisible]
  | cons e es ih =>
      by_cases hc : s.showWebView = false ∧ (step s e).1.showWebView = true
      · simp [flipsToVisible, hc, flipsToVisible_eq_zero _ _ hc.2]
      · simp [flipsToVisible, hc, ih]

/-- Content is visible after a trace iff it was visible already or the
trace flipped the flag. -/
theorem run_showWebView_true_iff (s : AppState) (es : List Event) :
    (run s es).showWebView = true ↔
      (s.showWebView = true ∨ 1 ≤ flipsToVisible s es) := by
  induction es generalizing s with
  | nil => simp [run, flipsToVisible]
  | cons e es ih =>
      simp only [run, flipsToVisible]
      rw [ih]
      by_cases h : s.showWebView = true
      · have h1 := showWebView_step_mono s e h
        simp [h, h1]
      · have hf : s.showWebView = false := by
          cases hb : s.showWebView
          · rfl
          · exact absurd hb h
        by_cases h2 : (step s e).1.showWebView = true
        · simp [hf, h2]
        · have h2f : (step s e).1.showWebView = false := by
            cases hb : (step s e).1.showWebView
            · rfl
            · exact absurd hb h2
          simp [hf, h2f]

/-- The boolean guard of the LOADED listener, characterised: it passes
iff `lastAdTime` is `null`, is the JS-falsy timestamp `0`, or at least
the cooldown has elapsed. -/
theorem loadedShowCond_iff_true (lastAdTime : Option Nat) (now : Nat) :
    loadedShowCond lastAdTime now = true ↔
      (lastAdTime = none ∨ lastAdTime = some 0 ∨
        ∃ t, lastAdTime = some t ∧ (now : Int) - (t : Int) ≥ (cooldownMs : Int)) := by
  rcases lastAdTime with _ | t
  · simp [loadedShowCond]
  · simp [loadedShowCond]

/-- The LOADED listener issues `show()` iff its guard passes. -/
theorem showAd_mem_onLoaded_iff (s : AppState) (now : Nat) :
    Action.showAd ∈ (onLoaded now s).2 ↔ loadedShowCond s.lastAdTime now = true := by
  rw [onLoaded_actions]
  split <;> simp_all

/-- Claim C1, as stated, is false on the code: after a show at
`Date.now() = 0` the guard `!lastAdTime` treats the stored timestamp `0`
as unset, so a second LOADED event at `now = 100` invokes `show()` even
though `lastAdTime` is set and only 100 ms have elapsed, contradicting
the claimed iff condition (`specShowCond`). -/
theorem C1_counterexample :
    Action.showAd ∈ (onLoaded 100 (run initialState [Event.adLoaded 0])).2 ∧
    ¬ specShowCond (run initialState [Event.adLoaded 0]).lastAdTime 100 := by
  have hrun : (run initialState [Event.adLoaded 0]).lastAdTime = some 0 := by decide
  constructor
  · decide
  · rw [hrun]
    rintro (h | ⟨t, ht, hle⟩)
    · exact Option.noConfusion h
    · cases Option.some.inj ht
      simp [cooldownMs] at hle

/-- Claim C1 amended: when the LOADED handler fires, `show()` is invoked
iff `lastAdTime` is unset, or `lastAdTime` is the JS-falsy timestamp `0`,
or `now - lastAdTime >= 300000 ms`; the original iff (`specShowCond`)
holds whenever `lastAdTime ≠ some 0`; and whenever `show()` is not
invoked, no action is issued and content is revealed immediately
(`showWebView := true`, `isLoading := false`). -/
theorem C1_amended (s : AppState) (now : Nat) :
    (Action.showAd ∈ (onLoaded now s).2 ↔
      (s.lastAdTime = none ∨ s.lastAdTime = some 0 ∨
        ∃ t, s.lastAdTime = some t ∧ (now : Int) - (t : Int) ≥ (cooldownMs : Int))) ∧
    (s.lastAdTime ≠ some 0 →
      (Action.showAd ∈ (onLoaded now s).2 ↔ specShowCond s.lastAdTime now)) ∧
    (Action.showAd ∉ (onLoaded now s).2 →
      (onLoaded now s).1.showWebView = true ∧ (onLoaded now s).1.isLoading = false ∧
        (onLoaded now s).2 = []) := by
  have hmem := showAd_mem_onLoaded_iff s now
  have hcond := loadedShowCond_iff_true s.lastAdTime now
  refine ⟨hmem.trans hcond, ?_, ?_⟩
  · intro hne
    rw [hmem, hcond]
    unfold specShowCond
    constructor
    · rintro (h | h | h)
      · exact Or.inl h
      · exact absurd h hne
      · exact Or.inr h
    · rintro (h | h)
      · exact Or.inl h
      · exact Or.inr (Or.inr h)
  · intro hnot
    have hfalse : loadedShowCond s.lastAdTime now = false := by
      cases hb : loadedShowCond s.lastAdTime now
      · rfl
      · exact absurd (hmem.mpr hb) hnot
    unfold onLoaded
    simp [hfalse]

/-- Witness for C1_amended: from the initial state (no prior show) the
LOADED handler at `now = 7` invokes `show()`; with `lastAdTime = some 1`
and `now = 3` it does not show and instead reveals the content. -/
theorem C1_witness :
    Action.showAd ∈ (onLoaded 7 initialState).2 ∧
    (onLoaded 3 { initialState with lastAdTime := some 1 }).1.showWebView = true :=
  ⟨(C1_amended initialState 7).1.mpr (Or.inl rfl),
   ((C1_amended { initialState with lastAdTime := some 1 } 3).2.2 (by decide)).1⟩

/-- Claim C2, as stated, is false on the code: because the CLOSED
listener preloads another interstitial, the trace show at `t = 1`, close,
LOADED again at `t = 300001` issues two `show()` calls in one session,
so resolutions {shown, skipped} do not occur exactly once per session. -/
theorem C2_counterexample :
    runActions initialState [Event.adLoaded 1, Event.adClosed, Event.adLoaded 300001] =
      [Action.showAd, Action.loadAd, Action.showAd] ∧
    countShows (runActions initialState
      [Event.adLoaded 1, Event.adClosed, Event.adLoaded 300001]) = 2 := by
  constructor <;> decide

/-- Claim C2 amended: per app session the content-visibility flag
`showWebView` transitions from gated (`false`) to visible (`true`) at
most once — content is visible after a trace iff exactly one such
transition occurred in it — regardless of whether the resolution path
was show-then-closed or cooldown-skip; but an ad resolution (show or
skip) can occur more than once per session, since CLOSED reloads the
interstitial. -/
theorem C2_amended (es : List Event) :
    flipsToVisible initialState es ≤ 1 ∧
    ((run initialState es).showWebView = true ↔ flipsToVisible initialState es = 1) := by
  refine ⟨flipsToVisible_le_one _ _, ?_⟩
  rw [run_showWebView_true_iff]
  have h1 := flipsToVisible_le_one initialState es
  constructor
  · rintro (h | h)
    · simp [initialState] at h
    · omega
  · intro h
    exact Or.inr (by omega)

/-- Witness for C2_amended at the show-then-closed trace. -/
theorem C2_witness :
    flipsToVisible initialState [Event.adLoaded 1, Event.adClosed] ≤ 1 ∧
    ((run initialState [Event.adLoaded 1, Event.adClosed]).showWebView = true ↔
      flipsToVisible initialState [Event.adLoaded 1, Event.adClosed] = 1) :=
  C2_amended [Event.adLoaded 1, Event.adClosed]

/-- Claim C3, as stated, is false on the code: in the reachable state
reached by show, close, an in-page navigation (`canGoBack = true`) and a
connectivity-lost notification, the content flag is `true` and
`canGoBack` is `true`, yet a back-press shows the exit prompt instead of
calling `goBack()`, because the `WebView` is unmounted while offline and
`webViewRef.current` is therefore null in the guard on line 121. -/
theorem C3_counterexample :
    (run initialState [Event.adLoaded 1, Event.adClosed, Event.navChange true,
        Event.netInfo (some false)]).showWebView = true ∧
    (run initialState [Event.adLoaded 1, Event.adClosed, Event.navChange true,
        Event.netInfo (some false)]).canGoBack = true ∧
    backAction (run initialState [Event.adLoaded 1, Event.adClosed, Event.navChange true,
        Event.netInfo (some false)]) = ([Action.showExitPrompt], true) := by
  refine ⟨?_, ?_, ?_⟩ <;> decide

/-- Claim C3 amended: on a hardware back-press, if content is visible,
the `WebView` is mounted (`webViewRef.current` non-null, which requires
`isConnected = true`) and `canGoBack = true`, the handler calls
`goBack()` and shows no exit prompt; otherwise it shows the exit
confirmation prompt; in every case it returns `true` (the event is
consumed), and the `exitApp` call is issued only by the explicit Exit
choice in the dialog. -/
theorem C3_amended (s : AppState) :
    (backAction s).2 = true ∧
    (s.showWebView = true → webViewMounted s = true → s.canGoBack = true →
      (backAction s).1 = [Action.goBack]) ∧
    (¬(s.showWebView = true ∧ webViewMounted s = true ∧ s.canGoBack = true) →
      (backAction s).1 = [Action.showExitPrompt]) ∧
    (∀ e : Event, Action.exitApp ∈ (step s e).2 → e = Event.exitConfirm) := by
  refine ⟨?_, ?_, ?_, ?_⟩
  · rw [backAction_eq]
  · intro h1 h2 h3
    rw [backAction_eq]
    simp [h1, h2, h3]
  · intro h
    have hb : (s.showWebView && webViewMounted s && s.canGoBack) = false := by
      cases hc : (s.showWebView && webViewMounted s && s.canGoBack)
      · rfl
      · exfalso
        apply h
        simpa [Bool.and_eq_true, and_assoc] using hc
    rw [backAction_eq]
    simp [hb]
  · intro e he
    cases e with
    | adLoaded now =>
        exfalso
        rw [show step s (Event.adLoaded now) = onLoaded now s from rfl,
          onLoaded_actions] at he
        revert he
        split <;> simp
    | adClosed => exact absurd he (by simp [step, onClosed])
    | netInfo v => exact absurd he (by simp [step])
    | backPress =>
        exfalso
        rw [show (step s Event.backPress).2 = (backAction s).1 from rfl,
          backAction_eq] at he
        revert he
        split <;> simp
    | refresh now =>
        exfalso
        rw [show (step s (Event.refresh now)).2 =
          (if webViewMounted s then [Action.reloadWebView] else []) from rfl] at he
        revert he
        split <;> simp
    | refreshTimeout => exact absurd he (by simp [step])
    | loadStart => exact absurd he (by simp [step])
    | loadEnd => exact absurd he (by simp [step])
    | webError => exact absurd he (by simp [step])
    | navChange b => exact absurd he (by simp [step])
    | exitConfirm => rfl
    | exitCancel => exact absurd he (by simp [step])

/-- Witness for C3_amended: with content visible, the WebView mounted
and history present, back goes back in the page; in the initial state
the exit prompt is shown instead. -/
theorem C3_witness :
    (backAction { initialState with showWebView := true, canGoBack := true }).1 =
      [Action.goBack] ∧
    (backAction initialState).1 = [Action.showExitPrompt] :=
  ⟨(C3_amended { initialState with showWebView := true, canGoBack := true }).2.1
      rfl rfl rfl,
   (C3_amended initialState).2.2.1 (by decide)⟩

/-- Claim C4, as stated, is false on the code: after a connectivity-lost
notification in the initial (still gated) state, `isConnected = false`
but the main area renders the `null` branch, not the offline message
with the retry control. -/
theorem C4_counterexample :
    (run initialState [Event.netInfo (some false)]).isConnected = false ∧
    render (run initialState [Event.netInfo (some false)]) = MainView.blank ∧
    MainView.blank ≠ MainView.offlineScreen := by
  refine ⟨?_, ?_, ?_⟩ <;> decide

/-- Claim C4 amended: when `isConnected = false` the `WebView` is never
rendered, and if additionally the gate is resolved (`showWebView = true`)
the offline message with its retry control is rendered; while the gate is
unresolved the main area renders nothing; the `WebView` is rendered only
when `showWebView = true` and `isConnected = true`. -/
theorem C4_amended (s : AppState) :
    (s.isConnected = false → ∀ b : Bool, render s ≠ MainView.webView b) ∧
    (s.isConnected = false → s.showWebView = true → render s = MainView.offlineScreen) ∧
    (s.showWebView = false → render s = MainView.blank) ∧
    (∀ b : Bool, render s = MainView.webView b →
      s.showWebView = true ∧ s.isConnected = true ∧ s.isLoading = b) := by
  cases hw : s.showWebView <;> cases hc : s.isConnected <;>
    simp [render, hw, hc]

/-- Witness for C4_amended: resolved and offline renders the offline
screen; the initial gated state renders blank. -/
theorem C4_witness :
    render { initialState with showWebView := true, isConnected := false } =
      MainView.offlineScreen ∧
    render initialState = MainView.blank :=
  ⟨(C4_amended { initialState with showWebView := true, isConnected := false }).2.1
      rfl rfl,
   (C4_amended initialState).2.2.1 rfl⟩

/-- Claim C5: the CLOSED listener reveals the content
(`showWebView := true`, `isLoading := false`) and issues exactly one
fresh `load()` call to preload the next interstitial; visibility is set
in the immediate post-state, so it does not depend on that future load. -/
theorem C5_closed_reveals_and_preloads (s : AppState) :
    (onClosed s).1.showWebView = true ∧ (onClosed s).1.isLoading = false ∧
    (onClosed s).2 = [Action.loadAd] :=
  ⟨rfl, rfl, rfl⟩

/-- Witness for C5_closed_reveals_and_preloads at the initial state. -/
theorem C5_witness :
    (onClosed initialState).1.showWebView = true ∧
    (onClosed initialState).1.isLoading = false ∧
    (onClosed initialState).2 = [Action.loadAd] :=
  C5_closed_reveals_and_preloads initialState

/-- Claim C6: invoking `handleRefresh` while `refreshing` is already
`true` starts no second reload-indicator cycle (the flag stays `true`,
so no new `false` to `true` cycle start is contributed to the trace
count); the handler schedules the reset exactly `1000` ms ahead; the
timer resets the flag unconditionally; and no page-load event
(`onLoadStart`, `onLoadEnd`, `onError`) touches the flag. -/
theorem C6_refresh_idempotent (s : AppState) (now : Nat) (es : List Event) :
    (s.refreshing = true →
      refreshingCycleStarts s (Event.refresh now :: es) =
        refreshingCycleStarts (step s (Event.refresh now)).1 es) ∧
    (s.refreshing = true → (handleRefresh now s).1.refreshing = true) ∧
    (handleRefresh now s).1.pendingTimeouts = s.pendingTimeouts ++ [now + refreshResetMs] ∧
    (onRefreshTimeout s).refreshing = false ∧
    (onLoadStart s).refreshing = s.refreshing ∧
    (onLoadEnd s).refreshing = s.refreshing ∧
    (onError s).refreshing = s.refreshing := by
  refine ⟨?_, fun _ => rfl, rfl, rfl, rfl, rfl, rfl⟩
  intro h
  simp [refreshingCycleStarts, h]

/-- Witness for C6_refresh_idempotent: a refresh issued while already
refreshing contributes no cycle start and keeps the flag `true`. -/
theorem C6_witness :
    refreshingCycleStarts { initialState with refreshing := true } [Event.refresh 0] =
      refreshingCycleStarts
        (step { initialState with refreshing := true } (Event.refresh 0)).1 [] ∧
    (handleRefresh 0 { initialState with refreshing := true }).1.refreshing = true :=
  ⟨(C6_refresh_idempotent { initialState with refreshing := true } 0 []).1 rfl,
   (C6_refresh_idempotent { initialState with refreshing := true } 0 []).2.1 rfl⟩

/-- Claim C7: the connectivity flag starts `true`; a notification whose
`isConnected` payload is `null`/`undefined` is stored as `true`
(fail-open); an explicit boolean payload is stored as-is. -/
theorem C7_connectivity_fail_open (s : AppState) (b : Bool) :
    initialState.isConnected = true ∧
    (onNetInfo none s).isConnected = true ∧
    (onNetInfo (some b) s).isConnected = b :=
  ⟨rfl, rfl, rfl⟩

/-- Witness for C7_connectivity_fail_open at concrete payloads. -/
theorem C7_witness :
    (onNetInfo none initialState).isConnected = true ∧
    (onNetInfo (some false) initialState).isConnected = false :=
  ⟨(C7_connectivity_fail_open initialState true).2.1,
   (C7_connectivity_fail_open initialState false).2.2⟩

/-- Claim C8: the WebView `onError` handler clears the loading flag and
changes nothing else — in particular the connectivity flag and the
content flag are untouched, so whether the offline screen renders is
unchanged by a browser load error. -/
theorem C8_error_clears_loading_only (s : AppState) :
    (onError s).isLoading = false ∧
    (onError s).isConnected = s.isConnected ∧
    (onError s).showWebView = s.showWebView ∧
    (render (onError s) = MainView.offlineScreen ↔ render s = MainView.offlineScreen) := by
  refine ⟨rfl, rfl, rfl, ?_⟩
  cases hw : s.showWebView <;> cases hc : s.isConnected <;>
    simp [render, onError, hw, hc]

/-- Witness for C8_error_clears_loading_only in the online WebView state. -/
theorem C8_witness :
    (onError { initialState with showWebView := true }).isLoading = false ∧
    (render (onError { initialState with showWebView := true }) = MainView.offlineScreen ↔
      render { initialState with showWebView := true } = MainView.offlineScreen) :=
  ⟨(C8_error_clears_loading_only { initialState with showWebView := true }).1,
   (C8_error_clears_loading_only { initialState with showWebView := true }).2.2.2⟩

/-- Claim C9, as stated, is false on the code: in the reachable resolved
offline state, activating the retry action issues no call at all to the
embedded browser — `webViewRef.current?.reload()` short-circuits on the
null ref of the unmounted `WebView` — so no reload of the browser is
attempted. -/
theorem C9_counterexample :
    (run initialState [Event.adLoaded 1, Event.adClosed,
        Event.netInfo (some false)]).showWebView = true ∧
    (run initialState [Event.adLoaded 1, Event.adClosed,
        Event.netInfo (some false)]).isConnected = false ∧
    (handleRefresh 5000 (run initialState [Event.adLoaded 1, Event.adClosed,
        Event.netInfo (some false)])).2 = [] := by
  refine ⟨?_, ?_, ?_⟩ <;> decide

/-- Claim C9 amended: activating the retry action sets the refreshing
flag and calls `reload()` only when the `WebView` is mounted; while the
gate is resolved and the device is offline the `WebView` is unmounted,
so no reload call is issued; the render is a pure function of the
current state, so subsequent renders reflect updated connectivity — in
particular once the monitor reports online again the `WebView` is
rendered. -/
theorem C9_amended (s : AppState) (now : Nat) :
    (handleRefresh now s).1.refreshing = true ∧
    ((handleRefresh now s).2 = if webViewMounted s then [Action.reloadWebView] else []) ∧
    (s.showWebView = true → s.isConnected = false → (handleRefresh now s).2 = []) ∧
    (s.showWebView = true →
      render (onNetInfo (some true) (handleRefresh now s).1) =
        MainView.webView (handleRefresh now s).1.isLoading) := by
  refine ⟨rfl, rfl, ?_, ?_⟩
  · intro _ hc
    have hm : webViewMounted s = false := by simp [webViewMounted, hc]
    show (if webViewMounted s then [Action.reloadWebView] else []) = []
    simp [hm]
  · intro hw
    simp [render, onNetInfo, handleRefresh, hw]

/-- Witness for C9_amended in the resolved offline state. -/
theorem C9_witness :
    (handleRefresh 0 { initialState with showWebView := true, isConnected := false }).2 =
      [] ∧
    render (onNetInfo (some true)
        (handleRefresh 0
          { initialState with showWebView := true, isConnected := false }).1) =
      MainView.webView
        (handleRefresh 0
          { initialState with showWebView := true, isConnected := false }).1.isLoading :=
  ⟨(C9_amended { initialState with showWebView := true, isConnected := false } 0).2.2.1
      rfl rfl,
   (C9_amended { initialState with showWebView := true, isConnected := false } 0).2.2.2
      rfl⟩

/-- Claim C10: the content-visibility flag is monotone — it starts
`false`, no single event handler ever sets it back to `false`, and along
every trace of ad, connectivity, navigation and refresh events it stays
`true` once it is `true`. -/
theorem C10_showWebView_monotone (s : AppState) (e : Event) (es : List Event) :
    initialState.showWebView = false ∧
    (s.showWebView = true → (step s e).1.showWebView = true) ∧
    (s.showWebView = true → (run s es).showWebView = true) :=
  ⟨rfl, showWebView_step_mono s e, showWebView_run_mono s es⟩

/-- Witness for C10_showWebView_monotone: visibility survives an error,
a connectivity loss and a back-press. -/
theorem C10_witness :
    (run { initialState with showWebView := true }
      [Event.webError, Event.netInfo (some false), Event.backPress]).showWebView = true :=
  (C10_showWebView_monotone { initialState with showWebView := true } Event.webError
    [Event.webError, Event.netInfo (some false), Event.backPress]).2.2 rfl

end UnimaidApp
